import Mathlib

/-!
Verification of the task-tracking API core (multi-tenant todo service).

The repository contains two schema variants for the task entity:
* variant A (the capitalized schema in the model file with statuses
  Pending / In Progress / Completed / Cancelled, used by the part_005
  controller, the part_000 model and routes/admin.js), and
* variant B (the lowercase schema with statuses pending / in-progress /
  completed, used by controllers/todoController.js, the part_001 model,
  and the adminRoutes admin controller).

Timestamps are modelled as integers (milliseconds since the epoch, as in
JavaScript Date arithmetic).  Mongo queries are modelled as executable
predicates over an in-memory list of records; countDocuments is List.countP
of the same predicate, find is List.filter followed by a stable sort.
-/

namespace MSTB

/-- Integer ceiling division, the value of Math.ceil of a quotient of
naturals as computed by the pagination code. -/
def ceilDiv (a b : Nat) : Nat := (a + b - 1) / b

/-- Milliseconds in one day, as used by the dashboard date arithmetic. -/
def msPerDay : Int := 86400000

/-- Test whether the first character list starts the second. -/
def startsWithChars : List Char → List Char → Bool
  | [], _ => true
  | _ :: _, [] => false
  | a :: p, b :: l => a == b && startsWithChars p l

/-- Test whether the first character list occurs as a contiguous segment
of the second. -/
def hasSegment (p : List Char) : List Char → Bool
  | [] => p.isEmpty
  | b :: l => startsWithChars p (b :: l) || hasSegment p l

/-- Case-insensitive substring test: the behaviour of a Mongo regex match
with the i option on a literal search term, computed by lowercasing both
sides character-wise. -/
def containsCI (hay pat : String) : Bool :=
  hasSegment (pat.toList.map Char.toLower) (hay.toList.map Char.toLower)

/-- Test whether a string trims to the empty string, as the blank-search
guard of the search endpoint computes with trim. -/
def isBlank (s : String) : Bool :=
  s.toList.all Char.isWhitespace

/-- Rounding as performed by JavaScript Math.round: floor of x + 1/2. -/
def jsRound (x : ℚ) : Int := Int.floor (x + 1 / 2)

/-- Insert an element into a list sorted by the boolean comparator le,
before the first element it compares below-or-equal to. -/
def insertByLE {α : Type} (le : α → α → Bool) (a : α) : List α → List α
  | [] => [a]
  | b :: l => if le a b then a :: b :: l else b :: insertByLE le a l

/-- Insertion sort by a boolean comparator; models the stable sort applied
by the data store to query results. -/
def sortByLE {α : Type} (le : α → α → Bool) : List α → List α
  | [] => []
  | a :: l => insertByLE le a (sortByLE le l)

/-- Principal roles: the role field of a user account. -/
inductive Role
  | user
  | admin
deriving DecidableEq, Repr

/-- The request principal (req.user): id and role. -/
structure Principal where
  pid : Nat
  role : Role
deriving DecidableEq, Repr

/-- Task status in the lowercase schema variant (part_001):
pending / in-progress / completed. -/
inductive StatusB
  | pending
  | inProgress
  | completed
deriving DecidableEq, Repr

/-- A task record of the lowercase schema variant. -/
structure TaskB where
  tid : Nat
  title : String
  description : String
  category : String
  priority : String
  dueDate : Int
  status : StatusB
  userId : Nat
  assignedBy : Option Nat
  completedAt : Option Int
  createdAt : Int
  updatedAt : Int
deriving DecidableEq, Repr

/-- The query parameters read by getTodos in todoController.js.  The
destructuring in the controller reads exactly these fields; a userId filter
supplied by the caller is never read, which is why it cannot appear here. -/
structure TodoQuery where
  page : Nat
  limit : Nat
  status : Option StatusB
  category : Option String
  priority : Option String
  search : Option String
  sortBy : String
  sortOrder : String
  group : Option String
deriving DecidableEq, Repr

/-- JavaScript truthiness of an optional string parameter: absent and empty
strings are falsy. -/
def optTruthy : Option String → Bool
  | none => false
  | some s => !(s = "")

/-- The group shortcut conditions added to the Mongo query by getTodos:
today, completed, overdue, all; any other value adds no condition. -/
def groupMatch (g : Option String) (now startOfToday : Int) (t : TaskB) : Bool :=
  match g with
  | none => true
  | some s =>
    if s = "today" then
      decide (startOfToday ≤ t.dueDate) && decide (t.dueDate < startOfToday + msPerDay)
        && decide (t.status ≠ StatusB.completed)
    else if s = "completed" then decide (t.status = StatusB.completed)
    else if s = "overdue" then decide (t.dueDate < now) && decide (t.status ≠ StatusB.completed)
    else if s = "all" then decide (t.status ≠ StatusB.completed)
    else true

/-- The complete match predicate of the Mongo query built by getTodos in
todoController.js: always scoped to the requesting user id, then the group
shortcut, then the raw status filter (only when no truthy group was given),
then category, priority and the two-field text search. -/
def matchesQuery (uid : Nat) (q : TodoQuery) (now startOfToday : Int) (t : TaskB) : Bool :=
  t.userId == uid
    && groupMatch q.group now startOfToday t
    && (match q.status with
        | some s => if optTruthy q.group then true else decide (t.status = s)
        | none => true)
    && (match q.category with
        | some c => if c = "" then true else decide (t.category = c)
        | none => true)
    && (match q.priority with
        | some p => if p = "" then true else decide (t.priority = p)
        | none => true)
    && (match q.search with
        | some s => if s = "" then true else containsCI t.title s || containsCI t.description s
        | none => true)

/-- Numeric sort key for the indexed date fields; the controller defaults to
createdAt, which is also used for unrecognized field names here. -/
def sortKey (sortBy : String) (t : TaskB) : Int :=
  if sortBy = "dueDate" then t.dueDate
  else if sortBy = "updatedAt" then t.updatedAt
  else t.createdAt

/-- Comparator for the sort spec built by getTodos: descending when
sortOrder is desc, ascending otherwise. -/
def sortLE (sortBy sortOrder : String) (a b : TaskB) : Bool :=
  if sortOrder = "desc" then decide (sortKey sortBy b ≤ sortKey sortBy a)
  else decide (sortKey sortBy a ≤ sortKey sortBy b)

/-- The sorted query result of getTodos before pagination. -/
def sortTodos (sortBy sortOrder : String) (l : List TaskB) : List TaskB :=
  sortByLE (sortLE sortBy sortOrder) l

/-- The response payload of getTodos: items plus the pagination block. -/
structure TodosPage where
  todos : List TaskB
  currentPage : Nat
  totalPages : Nat
  total : Nat
  hasNextPage : Bool
  hasPrevPage : Bool
deriving DecidableEq, Repr

/-- getTodos from todoController.js: build the query, filter, sort, skip and
limit, and count the documents matching the same query for the total. -/
def getTodos (uid : Nat) (q : TodoQuery) (now startOfToday : Int) (db : List TaskB) : TodosPage :=
  let matched := db.filter (matchesQuery uid q now startOfToday)
  let sorted := sortTodos q.sortBy q.sortOrder matched
  let skip := (q.page - 1) * q.limit
  let total := matched.length
  let totalPages := ceilDiv total q.limit
  { todos := (sorted.drop skip).take q.limit
    currentPage := q.page
    totalPages := totalPages
    total := total
    hasNextPage := decide (q.page < totalPages)
    hasPrevPage := decide (1 < q.page) }

/-- The same request with a different page number; all other parameters are
kept. -/
def pageQ (q : TodoQuery) (p : Nat) : TodoQuery :=
  { q with page := p }

/-- The typed failures of the core, per the error taxonomy.  The HTTP layer
maps invalidParameter and conflict to 400, notFound to 404 and forbidden
to 403; conflict covers the last-admin and self-deactivation rejections. -/
inductive ApiError
  | invalidParameter
  | notFound
  | forbidden
  | conflict
deriving DecidableEq, Repr

/-- Task status in the capitalized schema variant (part_000):
Pending / In Progress / Completed / Cancelled. -/
inductive StatusA
  | pending
  | inProgress
  | completed
  | cancelled
deriving DecidableEq, Repr

/-- A task record of the capitalized schema variant, which additionally
stores an isOverdue flag. -/
structure TaskA where
  tid : Nat
  title : String
  description : String
  category : String
  priority : String
  dueDate : Int
  status : StatusA
  userId : Nat
  assignedBy : Option Nat
  completedAt : Option Int
  isOverdue : Bool
  createdAt : Int
  updatedAt : Int
deriving DecidableEq, Repr

/-- The isOverdueVirtual virtual of the part_000 schema: false for
Completed or Cancelled tasks, otherwise true when now is past the due
date. -/
def isOverdueVirtual (now : Int) (t : TaskA) : Bool :=
  if t.status = StatusA.completed ∨ t.status = StatusA.cancelled then false
  else decide (t.dueDate < now)

/-- The isOverdue virtual of the part_001 schema: false for completed
tasks, otherwise true when now is past the due date. -/
def isOverdueB (now : Int) (t : TaskB) : Bool :=
  if t.status = StatusB.completed then false
  else decide (t.dueDate < now)

/-- The specified overdue predicate on the capitalized schema: status not
completed or cancelled, and due date strictly before now. -/
def specOverdueA (now : Int) (t : TaskA) : Bool :=
  decide (t.status ≠ StatusA.completed) && decide (t.status ≠ StatusA.cancelled)
    && decide (t.dueDate < now)

/-- The specified overdue predicate restricted to the lowercase schema,
whose status enum has no cancelled member: status not completed and due
date strictly before now. -/
def specOverdueB (now : Int) (t : TaskB) : Bool :=
  decide (t.status ≠ StatusB.completed) && decide (t.dueDate < now)

/-- The overdue count of the adminRoutes dashboard (and of the per-user
stats in the same controller): countDocuments with dueDate before now and
status not equal to completed. -/
def dashboardOverdueCount (now : Int) (db : List TaskB) : Nat :=
  db.countP (fun t => decide (t.dueDate < now) && decide (t.status ≠ StatusB.completed))

/-- The overdue count of the routes/admin.js dashboard and reports:
countDocuments with dueDate before now and status not in
Completed or Cancelled. -/
def adminJsOverdueCount (now : Int) (db : List TaskA) : Nat :=
  db.countP (fun t => decide (t.dueDate < now)
    && decide (t.status ≠ StatusA.completed) && decide (t.status ≠ StatusA.cancelled))

/-- The findOverdue static of the part_000 schema: dueDate before now and
status not in Completed or Cancelled, optionally scoped to one user,
sorted by due date ascending. -/
def findOverdue (now : Int) (uid : Option Nat) (db : List TaskA) : List TaskA :=
  sortByLE (fun a b => decide (a.dueDate ≤ b.dueDate))
    (db.filter (fun t => decide (t.dueDate < now)
      && decide (t.status ≠ StatusA.completed) && decide (t.status ≠ StatusA.cancelled)
      && (match uid with | some u => t.userId == u | none => true)))

/-- The pre-save hook of the part_001 schema: on a transition into
completed with no completion timestamp, stamp it with now; whenever the
status is not completed, clear it. -/
def preSaveB (now : Int) (t : TaskB) : TaskB :=
  let t1 := if t.status = StatusB.completed ∧ t.completedAt = none
    then { t with completedAt := some now } else t
  if t1.status ≠ StatusB.completed then { t1 with completedAt := none } else t1

/-- The pre-save hook of the part_000 schema: refresh updatedAt, stamp
completedAt on a transition into Completed when unset, clear it when the
status left Completed, and recompute the stored isOverdue flag. -/
def preSaveA (now : Int) (t : TaskA) : TaskA :=
  let t0 := { t with updatedAt := now }
  let t1 := if t0.status = StatusA.completed ∧ t0.completedAt = none
    then { t0 with completedAt := some now } else t0
  let t2 := if t1.status ≠ StatusA.completed ∧ t1.completedAt ≠ none
    then { t1 with completedAt := none } else t1
  if t2.status ≠ StatusA.completed ∧ t2.status ≠ StatusA.cancelled
    then { t2 with isOverdue := decide (t2.dueDate < now) }
    else { t2 with isOverdue := false }

/-- The markCompleted instance method of the part_000 schema: set the
status to Completed and completedAt to now unconditionally, then save
(which runs the pre-save hook). -/
def markCompleted (now : Int) (t : TaskA) : TaskA :=
  preSaveA now { t with status := StatusA.completed, completedAt := some now, isOverdue := false }

/-- The partial update body read by updateTodo in todoController.js. -/
structure UpdateBody where
  title : Option String
  description : Option String
  dueDate : Option Int
  category : Option String
  priority : Option String
  status : Option StatusB
  assignToUserId : Option Nat
deriving DecidableEq, Repr

/-- The updateData object built by updateTodo in todoController.js,
applied to the stored task: only supplied fields change; a supplied status
also drives completedAt, stamping it only when the stored task had none
and clearing it on any non-completed status. -/
def updateData (todo : TaskB) (b : UpdateBody) (now : Int) : TaskB :=
  let t := todo
  let t := match b.title with | some v => { t with title := v } | none => t
  let t := match b.description with | some v => { t with description := v } | none => t
  let t := match b.dueDate with | some v => { t with dueDate := v } | none => t
  let t := match b.category with | some v => { t with category := v } | none => t
  let t := match b.priority with | some v => { t with priority := v } | none => t
  match b.status with
  | some s =>
      let t1 := { t with status := s }
      if s = StatusB.completed ∧ todo.completedAt = none
        then { t1 with completedAt := some now }
      else if s ≠ StatusB.completed then { t1 with completedAt := none }
      else t1
  | none => t

/-- Look up a task by id, as findById over the store. -/
def findTodoB (db : List TaskB) (todoId : Nat) : Option TaskB :=
  db.find? (fun t => t.tid == todoId)

/-- Look up a task by id in the capitalized store. -/
def findTodoA (db : List TaskA) (todoId : Nat) : Option TaskA :=
  db.find? (fun t => t.tid == todoId)

/-- updateTodo from todoController.js: 404 when the id resolves to
nothing, 403 when the requester neither owns the task nor is an admin;
otherwise apply the updateData object; when an admin supplied
assignToUserId, verify the target user exists (404 otherwise) and
reassign the task to the target while recording the admin in assignedBy.
A non-admin request's assignToUserId is ignored. -/
def updateTodo (u : Principal) (todoId : Nat) (b : UpdateBody) (users : List Nat)
    (now : Int) (db : List TaskB) : Except ApiError TaskB :=
  match findTodoB db todoId with
  | none => Except.error ApiError.notFound
  | some todo =>
    if todo.userId ≠ u.pid ∧ u.role ≠ Role.admin then Except.error ApiError.forbidden
    else
      let base := updateData todo b now
      match b.assignToUserId with
      | some target =>
        if u.role = Role.admin then
          if users.contains target then
            Except.ok { base with userId := target, assignedBy := some u.pid }
          else Except.error ApiError.notFound
        else Except.ok base
      | none => Except.ok base

/-- The partial update body read by the part_005 updateTodo, which has no
owner or assignment field at all. -/
structure UpdateBodyP5 where
  title : Option String
  description : Option String
  dueDate : Option Int
  category : Option String
  priority : Option String
  status : Option StatusA
deriving DecidableEq, Repr

/-- Field-level assignment of the supplied fields of a part_005 update
body onto the stored document, before saving. -/
def applyUpdateP5 (todo : TaskA) (b : UpdateBodyP5) : TaskA :=
  let t := todo
  let t := match b.title with | some v => { t with title := v } | none => t
  let t := match b.description with | some v => { t with description := v } | none => t
  let t := match b.dueDate with | some v => { t with dueDate := v } | none => t
  let t := match b.category with | some v => { t with category := v } | none => t
  let t := match b.priority with | some v => { t with priority := v } | none => t
  match b.status with | some v => { t with status := v } | none => t

/-- updateTodo from the part_005 controller: ownership check, field-level
assignment of the supplied fields onto the document, then save (running
the part_000 pre-save hook). -/
def updateTodoP5 (u : Principal) (todoId : Nat) (b : UpdateBodyP5)
    (now : Int) (db : List TaskA) : Except ApiError TaskA :=
  match findTodoA db todoId with
  | none => Except.error ApiError.notFound
  | some todo =>
    if todo.userId ≠ u.pid ∧ u.role ≠ Role.admin then Except.error ApiError.forbidden
    else Except.ok (preSaveA now (applyUpdateP5 todo b))

/-- The create body read by createTodo in todoController.js. -/
structure CreateBody where
  title : String
  description : String
  dueDate : Int
  category : String
  priority : Option String
  assignToUserId : Option Nat
deriving DecidableEq, Repr

/-- A freshly constructed task document of the lowercase schema, with the
schema defaults for status and completedAt and the priority default. -/
def newTaskB (tid : Nat) (b : CreateBody) (owner : Nat) (assignedBy : Option Nat)
    (now : Int) : TaskB :=
  { tid := tid
    title := b.title
    description := b.description
    category := b.category
    priority := b.priority.getD "Medium"
    dueDate := b.dueDate
    status := StatusB.pending
    userId := owner
    assignedBy := assignedBy
    completedAt := none
    createdAt := now
    updatedAt := now }

/-- createTodo from todoController.js: when an admin supplies
assignToUserId, verify the target exists (404 otherwise) and create the
task owned by the target with assignedBy set to the admin; any other
request, including a non-admin request that supplies assignToUserId,
creates a task owned by the requester with assignedBy null.  The saved
document passes through the pre-save hook. -/
def createTodo (u : Principal) (b : CreateBody) (users : List Nat) (tid : Nat)
    (now : Int) : Except ApiError TaskB :=
  match b.assignToUserId with
  | some target =>
    if u.role = Role.admin then
      if users.contains target then
        Except.ok (preSaveB now (newTaskB tid b target (some u.pid) now))
      else Except.error ApiError.notFound
    else Except.ok (preSaveB now (newTaskB tid b u.pid none now))
  | none => Except.ok (preSaveB now (newTaskB tid b u.pid none now))

/-- The create body read by the part_005 createTodo, whose target-owner
field is named userId in the request. -/
structure CreateBodyP5 where
  title : String
  description : String
  dueDate : Int
  category : String
  priority : Option String
  targetUserId : Option Nat
deriving DecidableEq, Repr

/-- A freshly constructed task document of the capitalized schema. -/
def newTaskA (tid : Nat) (b : CreateBodyP5) (owner : Nat) (assignedBy : Option Nat)
    (now : Int) : TaskA :=
  { tid := tid
    title := b.title
    description := b.description
    category := b.category
    priority := b.priority.getD "Medium"
    dueDate := b.dueDate
    status := StatusA.pending
    userId := owner
    assignedBy := assignedBy
    completedAt := none
    isOverdue := false
    createdAt := now
    updatedAt := now }

/-- createTodo from the part_005 controller: an admin supplying a target
user id creates the task for that user (404 when the target is missing)
with assignedBy set to the admin; a non-admin supplying a target user id
is rejected with 403; otherwise the task is created for the requester. -/
def createTodoP5 (u : Principal) (b : CreateBodyP5) (users : List Nat) (tid : Nat)
    (now : Int) : Except ApiError TaskA :=
  match b.targetUserId with
  | some target =>
    if u.role = Role.admin then
      if users.contains target then
        Except.ok (preSaveA now (newTaskA tid b target (some u.pid) now))
      else Except.error ApiError.notFound
    else Except.error ApiError.forbidden
  | none => Except.ok (preSaveA now (newTaskA tid b u.pid none now))

/-- A user account record. -/
structure UserRec where
  uid : Nat
  username : String
  role : Role
  isActive : Bool
deriving DecidableEq, Repr

/-- countDocuments over users with role admin and isActive true. -/
def countActiveAdmins (users : List UserRec) : Nat :=
  users.countP (fun u => decide (u.role = Role.admin) && u.isActive)

/-- countDocuments over active admins whose id differs from the target, as
computed by the last-admin check of routes/admin.js. -/
def otherActiveAdmins (targetId : Nat) (users : List UserRec) : Nat :=
  users.countP (fun u => decide (u.role = Role.admin) && u.isActive
    && decide (u.uid ≠ targetId))

/-- deleteAccount from the part_007 auth controller: an admin requester is
rejected when at most one active admin exists; otherwise the requester's
own account is deactivated (soft delete). -/
def deleteAccount (requester : UserRec) (users : List UserRec) :
    Except ApiError (List UserRec) :=
  if requester.role = Role.admin ∧ countActiveAdmins users ≤ 1 then
    Except.error ApiError.conflict
  else
    Except.ok (users.map (fun u =>
      if u.uid = requester.uid then { u with isActive := false } else u))

/-- The body of an admin user-update request: optional role and active
flag. -/
structure UserUpdateBody where
  role : Option Role
  isActive : Option Bool
deriving DecidableEq, Repr

/-- Apply the update object built from a user-update body to an account
record: only supplied fields change. -/
def applyUserUpdate (b : UserUpdateBody) (u : UserRec) : UserRec :=
  let u1 := match b.role with | some r => { u with role := r } | none => u
  match b.isActive with | some a => { u1 with isActive := a } | none => u1

/-- PUT /users/:id from routes/admin.js: reject a self-deactivation;
reject demoting an admin target to user when no other active admin
exists; otherwise apply the update to the target (404 when the target id
resolves to nothing). -/
def adminJsUpdateUser (requester : UserRec) (targetId : Nat) (b : UserUpdateBody)
    (users : List UserRec) : Except ApiError (List UserRec) :=
  if targetId = requester.uid ∧ b.isActive = some false then
    Except.error ApiError.conflict
  else
    match users.find? (fun u => u.uid == targetId) with
    | none => Except.error ApiError.notFound
    | some target =>
      if b.role = some Role.user ∧ target.role = Role.admin
          ∧ otherActiveAdmins targetId users < 1 then
        Except.error ApiError.conflict
      else
        Except.ok (users.map (fun u =>
          if u.uid = targetId then applyUserUpdate b u else u))

/-- updateUser from the adminRoutes admin controller (part_008), wired at
PUT /users/:userId: reject a self-deactivation, then apply the update to
the target with no last-admin check of any kind. -/
def adminRoutesUpdateUser (requester : UserRec) (targetId : Nat) (b : UserUpdateBody)
    (users : List UserRec) : Except ApiError (List UserRec) :=
  if targetId = requester.uid ∧ b.isActive = some false then
    Except.error ApiError.conflict
  else
    match users.find? (fun u => u.uid == targetId) with
    | none => Except.error ApiError.notFound
    | some _ =>
      Except.ok (users.map (fun u =>
        if u.uid = targetId then applyUserUpdate b u else u))

/-- Comparator of the group endpoint's sort spec: due date ascending with
created-at descending as tie-break. -/
def groupSortLE (a b : TaskB) : Bool :=
  decide (a.dueDate < b.dueDate)
    || (decide (a.dueDate = b.dueDate) && decide (b.createdAt ≤ a.createdAt))

/-- getTodosByGroup from todoController.js: the four recognized groups
build a scoped query; any other group value is rejected with a 400
invalid-parameter response. -/
def getTodosByGroup (uid : Nat) (group : String) (now startOfToday : Int)
    (db : List TaskB) : Except ApiError (List TaskB) :=
  if group = "today" then
    Except.ok (sortByLE groupSortLE (db.filter (fun t => t.userId == uid
      && decide (startOfToday ≤ t.dueDate) && decide (t.dueDate < startOfToday + msPerDay)
      && decide (t.status ≠ StatusB.completed))))
  else if group = "all" then
    Except.ok (sortByLE groupSortLE (db.filter (fun t => t.userId == uid
      && decide (t.status ≠ StatusB.completed))))
  else if group = "completed" then
    Except.ok (sortByLE groupSortLE (db.filter (fun t => t.userId == uid
      && decide (t.status = StatusB.completed))))
  else if group = "overdue" then
    Except.ok (sortByLE groupSortLE (db.filter (fun t => t.userId == uid
      && decide (t.dueDate < now) && decide (t.status ≠ StatusB.completed))))
  else Except.error ApiError.invalidParameter

/-- The two-field text match of the search endpoint in todoController.js:
case-insensitive substring of title or description. -/
def searchMatch2 (q : String) (t : TaskB) : Bool :=
  containsCI t.title q || containsCI t.description q

/-- The three-field text match of the part_000 searchTodos static:
case-insensitive substring of title, description or category. -/
def searchMatch3 (q : String) (t : TaskA) : Bool :=
  containsCI t.title q || containsCI t.description q || containsCI t.category q

/-- The search predicate stated by the spec, on the lowercase schema: a
disjunctive case-insensitive contains over title, description and
category. -/
def specSearchMatch3B (q : String) (t : TaskB) : Bool :=
  containsCI t.title q || containsCI t.description q || containsCI t.category q

/-- The documents matched by the search query of todoController.js:
scoped to the requester and matching the two-field predicate. -/
def searchCtrlFilter (uid : Nat) (q : String) (db : List TaskB) : List TaskB :=
  db.filter (fun t => t.userId == uid && searchMatch2 q t)

/-- The response payload of the search endpoint: one page of items plus
the total count before pagination. -/
structure SearchResult where
  todos : List TaskB
  total : Nat
deriving DecidableEq, Repr

/-- searchTodos from todoController.js: a blank search term is rejected
with a 400 invalid-parameter response; otherwise the scoped two-field
matches are sorted by created-at descending and paginated, with the total
counted before pagination. -/
def searchTodos (uid : Nat) (q : String) (page limit : Nat) (db : List TaskB) :
    Except ApiError SearchResult :=
  if isBlank q then Except.error ApiError.invalidParameter
  else
    let matched := searchCtrlFilter uid q db
    let sorted := sortByLE (fun a b => decide (b.createdAt ≤ a.createdAt)) matched
    Except.ok { todos := (sorted.drop ((page - 1) * limit)).take limit
                total := matched.length }

/-- The searchTodos static of the part_000 schema: the three-field match,
optionally scoped to one user, sorted by created-at descending. -/
def searchTodosStatic (q : String) (uid : Option Nat) (db : List TaskA) : List TaskA :=
  sortByLE (fun a b => decide (b.createdAt ≤ a.createdAt))
    (db.filter (fun t => searchMatch3 q t
      && (match uid with | some u => t.userId == u | none => true)))

/-- The weekly-comparison block of the adminRoutes dashboard. -/
structure WeeklyComparison where
  currentWeek : Nat
  previousWeek : Nat
  growth : Int
deriving DecidableEq, Repr

/-- The weekly comparison computed by getDashboard (part_008): the count
of tasks created since seven days ago, the count created between fourteen
and seven days ago, and the rounded percentage growth between them. -/
def weeklyComparison (now : Int) (db : List TaskB) : WeeklyComparison :=
  let sevenDaysAgo := now - 7 * msPerDay
  let fourteenDaysAgo := now - 14 * msPerDay
  let recentTodos := db.countP (fun t => decide (sevenDaysAgo ≤ t.createdAt))
  let previousWeekTodos := db.countP (fun t =>
    decide (fourteenDaysAgo ≤ t.createdAt) && decide (t.createdAt < sevenDaysAgo))
  let growth : Int :=
    if 0 < previousWeekTodos then
      jsRound ((((recentTodos : Int) - (previousWeekTodos : Int) : Int) : ℚ)
        / ((previousWeekTodos : Int) : ℚ) * 100)
    else if 0 < recentTodos then 100 else 0
  { currentWeek := recentTodos, previousWeek := previousWeekTodos, growth := growth }

/-- The query parameters read by the part_005 getTodos. -/
structure TodoQueryP5 where
  page : Nat
  limit : Nat
  searchQuery : Option String
  category : Option String
  status : Option StatusA
  priority : Option String
  sortBy : String
  sortOrder : String
deriving DecidableEq, Repr

/-- The match predicate of the query built by the part_005 getTodos:
scoped to the requesting user, with optional exact category, status and
priority filters and a two-field text search. -/
def matchesQueryP5 (uid : Nat) (q : TodoQueryP5) (t : TaskA) : Bool :=
  t.userId == uid
    && (match q.category with
        | some c => if c = "" then true else decide (t.category = c)
        | none => true)
    && (match q.status with
        | some s => decide (t.status = s)
        | none => true)
    && (match q.priority with
        | some p => if p = "" then true else decide (t.priority = p)
        | none => true)
    && (match q.searchQuery with
        | some s => if s = "" then true else containsCI t.title s || containsCI t.description s
        | none => true)

/-- Numeric sort key used by the part_005 getTodos sort options. -/
def sortKeyA (sortBy : String) (t : TaskA) : Int :=
  if sortBy = "dueDate" then t.dueDate
  else if sortBy = "updatedAt" then t.updatedAt
  else t.createdAt

/-- The items list returned by the part_005 getTodos: filter, sort, skip
and limit. -/
def getTodosP5 (uid : Nat) (q : TodoQueryP5) (db : List TaskA) : List TaskA :=
  let matched := db.filter (matchesQueryP5 uid q)
  let le : TaskA → TaskA → Bool := fun a b =>
    if q.sortOrder = "desc" then decide (sortKeyA q.sortBy b ≤ sortKeyA q.sortBy a)
    else decide (sortKeyA q.sortBy a ≤ sortKeyA q.sortBy b)
  ((sortByLE le matched).drop ((q.page - 1) * q.limit)).take q.limit

end MSTB

namespace MSTB

/-! Helper lemmas about the sort model. -/

theorem insertByLE_perm {α : Type} (le : α → α → Bool) (a : α) (l : List α) :
    List.Perm (insertByLE le a l) (a :: l) := by
  induction l with
  | nil => simp [insertByLE]
  | cons b l ih =>
      simp only [insertByLE]
      by_cases h : le a b = true
      · simp [h]
      · rw [if_neg h]
        exact (ih.cons b).trans (List.Perm.swap a b l)

theorem sortByLE_perm {α : Type} (le : α → α → Bool) (l : List α) :
    List.Perm (sortByLE le l) l := by
  induction l with
  | nil => simp [sortByLE]
  | cons a l ih =>
      exact (insertByLE_perm le a (sortByLE le l)).trans (ih.cons a)

theorem mem_sortByLE {α : Type} (le : α → α → Bool) (l : List α) (a : α) :
    a ∈ sortByLE le l ↔ a ∈ l :=
  (sortByLE_perm le l).mem_iff

theorem length_sortByLE {α : Type} (le : α → α → Bool) (l : List α) :
    (sortByLE le l).length = l.length :=
  (sortByLE_perm le l).length_eq

/-- C1: for every list query issued by a non-admin principal, every task
in the returned items is owned by the principal, in both list controller
variants: each builds its query as userId-scoped before any
caller-supplied filter is applied, and neither parameter record contains
an owner filter at all, so no choice of filters can widen the result to
another user's tasks. -/
theorem getTodos_scoped_to_principal (u : Principal) (hrole : u.role ≠ Role.admin) :
    (∀ (q : TodoQuery) (now startOfToday : Int) (db : List TaskB),
        ∀ t ∈ (getTodos u.pid q now startOfToday db).todos, t.userId = u.pid)
    ∧ (∀ (q5 : TodoQueryP5) (db5 : List TaskA),
        ∀ t ∈ getTodosP5 u.pid q5 db5, t.userId = u.pid) := by
  constructor
  · intro q now startOfToday db t ht
    have h1 : t ∈ sortTodos q.sortBy q.sortOrder
        (db.filter (matchesQuery u.pid q now startOfToday)) := by
      have := List.mem_of_mem_take ht
      exact List.mem_of_mem_drop this
    have h2 : t ∈ db.filter (matchesQuery u.pid q now startOfToday) :=
      (mem_sortByLE _ _ t).mp h1
    have h3 : matchesQuery u.pid q now startOfToday t = true := List.of_mem_filter h2
    unfold matchesQuery at h3
    simp only [Bool.and_eq_true, beq_iff_eq] at h3
    exact h3.1.1.1.1.1
  · intro q5 db5 t ht
    have h1 : t ∈ sortByLE (fun a b =>
        if q5.sortOrder = "desc" then decide (sortKeyA q5.sortBy b ≤ sortKeyA q5.sortBy a)
        else decide (sortKeyA q5.sortBy a ≤ sortKeyA q5.sortBy b))
        (db5.filter (matchesQueryP5 u.pid q5)) := by
      have := List.mem_of_mem_take ht
      exact List.mem_of_mem_drop this
    have h2 : t ∈ db5.filter (matchesQueryP5 u.pid q5) := (mem_sortByLE _ _ t).mp h1
    have h3 : matchesQueryP5 u.pid q5 t = true := List.of_mem_filter h2
    unfold matchesQueryP5 at h3
    simp only [Bool.and_eq_true, beq_iff_eq] at h3
    exact h3.1.1.1.1

/-! Helper lemmas about the pre-save hooks and the update object. -/

theorem preSaveB_userId (now : Int) (t : TaskB) : (preSaveB now t).userId = t.userId := by
  rcases t with ⟨tid, ti, de, ca, pr, dd, st, ui, ab, co, cr, up⟩
  cases st <;> cases co <;> rfl

theorem preSaveB_assignedBy (now : Int) (t : TaskB) :
    (preSaveB now t).assignedBy = t.assignedBy := by
  rcases t with ⟨tid, ti, de, ca, pr, dd, st, ui, ab, co, cr, up⟩
  cases st <;> cases co <;> rfl

theorem preSaveB_status (now : Int) (t : TaskB) : (preSaveB now t).status = t.status := by
  rcases t with ⟨tid, ti, de, ca, pr, dd, st, ui, ab, co, cr, up⟩
  cases st <;> cases co <;> rfl

theorem preSaveA_userId (now : Int) (t : TaskA) : (preSaveA now t).userId = t.userId := by
  rcases t with ⟨tid, ti, de, ca, pr, dd, st, ui, ab, co, ov, cr, up⟩
  cases st <;> cases co <;> rfl

theorem preSaveA_assignedBy (now : Int) (t : TaskA) :
    (preSaveA now t).assignedBy = t.assignedBy := by
  rcases t with ⟨tid, ti, de, ca, pr, dd, st, ui, ab, co, ov, cr, up⟩
  cases st <;> cases co <;> rfl

theorem preSaveB_completedAt_iff (now : Int) (t : TaskB) :
    (preSaveB now t).status = StatusB.completed ↔ (preSaveB now t).completedAt ≠ none := by
  rcases t with ⟨tid, ti, de, ca, pr, dd, st, ui, ab, co, cr, up⟩
  cases st <;> cases co <;> simp [preSaveB]

theorem preSaveA_completedAt_iff (now : Int) (t : TaskA) :
    (preSaveA now t).status = StatusA.completed ↔ (preSaveA now t).completedAt ≠ none := by
  rcases t with ⟨tid, ti, de, ca, pr, dd, st, ui, ab, co, ov, cr, up⟩
  cases st <;> cases co <;> simp [preSaveA]

theorem preSaveB_keeps_completedAt (now : Int) (t : TaskB) (c : Int)
    (hst : t.status = StatusB.completed) (hco : t.completedAt = some c) :
    (preSaveB now t).completedAt = some c := by
  rcases t with ⟨tid, ti, de, ca, pr, dd, st, ui, ab, co, cr, up⟩
  subst hst
  simp only at hco
  subst hco
  rfl

theorem updateData_fields (todo : TaskB) (b : UpdateBody) (now : Int) :
    (updateData todo b now).userId = todo.userId
    ∧ (updateData todo b now).assignedBy = todo.assignedBy
    ∧ (updateData todo b now).status
        = (match b.status with | some s => s | none => todo.status)
    ∧ (updateData todo b now).completedAt
        = (match b.status with
           | some s =>
              if s = StatusB.completed ∧ todo.completedAt = none then some now
              else if s ≠ StatusB.completed then none
              else todo.completedAt
           | none => todo.completedAt) := by
  rcases b with ⟨bt, bd, bdd, bc, bp, bs, ba⟩
  refine ⟨?_, ?_, ?_, ?_⟩ <;>
    (cases bt <;> cases bd <;> cases bdd <;> cases bc <;> cases bp <;> cases bs <;>
      first
      | rfl
      | (unfold updateData; dsimp only; split_ifs <;> rfl))

theorem applyUpdateP5_userId (todo : TaskA) (b : UpdateBodyP5) :
    (applyUpdateP5 todo b).userId = todo.userId := by
  rcases b with ⟨bt, bd, bdd, bc, bp, bs⟩
  cases bt <;> cases bd <;> cases bdd <;> cases bc <;> cases bp <;> cases bs <;> rfl

theorem applyUpdateP5_assignedBy (todo : TaskA) (b : UpdateBodyP5) :
    (applyUpdateP5 todo b).assignedBy = todo.assignedBy := by
  rcases b with ⟨bt, bd, bdd, bc, bp, bs⟩
  cases bt <;> cases bd <;> cases bdd <;> cases bc <;> cases bp <;> cases bs <;> rfl

/-- Witness for C1 at a concrete non-admin principal, query and store. -/
theorem getTodos_scoped_to_principal_witness :
    (Principal.mk 1 Role.user).role ≠ Role.admin ∧
      ∀ t ∈ (getTodos 1
          (TodoQuery.mk 1 20 none none none none "createdAt" "desc" none) 1000 0
          [TaskB.mk 7 "a" "b" "Personal" "Medium" 500 StatusB.pending 1 none none 10 10]).todos,
        t.userId = 1 := by
  refine ⟨by decide, ?_⟩
  exact (getTodos_scoped_to_principal (Principal.mk 1 Role.user) (by decide)).1
    (TodoQuery.mk 1 20 none none none none "createdAt" "desc" none) 1000 0
    [TaskB.mk 7 "a" "b" "Personal" "Medium" 500 StatusB.pending 1 none none 10 10]

/-- C4: the overdue predicate is true iff the status is outside
completed and cancelled and the due date is strictly before now; it is
never true for completed or cancelled tasks; and the analytics overdue
counts use the same predicate.  In the capitalized schema the virtual,
the findOverdue static and the admin.js dashboard count all test status
not in Completed or Cancelled; in the lowercase schema, whose status
enum has no cancelled member, the virtual and the adminRoutes dashboard
count test status not equal to completed, which on that status space is
exactly the specified predicate. -/
theorem overdue_predicate_consistent :
    (∀ (now : Int) (t : TaskA), isOverdueVirtual now t = specOverdueA now t)
    ∧ (∀ (now : Int) (t : TaskA),
        t.status = StatusA.completed ∨ t.status = StatusA.cancelled →
          isOverdueVirtual now t = false)
    ∧ (∀ (now : Int) (t : TaskB), isOverdueB now t = specOverdueB now t)
    ∧ (∀ (now : Int) (db : List TaskB),
        dashboardOverdueCount now db = db.countP (specOverdueB now))
    ∧ (∀ (now : Int) (db : List TaskA),
        adminJsOverdueCount now db = db.countP (specOverdueA now))
    ∧ (∀ (now : Int) (db : List TaskA),
        (findOverdue now none db).length = db.countP (specOverdueA now)) := by
  refine ⟨?_, ?_, ?_, ?_, ?_, ?_⟩
  · intro now t
    rcases t with ⟨tid, ti, de, ca, pr, dd, st, ui, ab, co, ov, cr, up⟩
    cases st <;> simp [isOverdueVirtual, specOverdueA]
  · intro now t h
    rcases t with ⟨tid, ti, de, ca, pr, dd, st, ui, ab, co, ov, cr, up⟩
    rcases h with h | h <;> (simp only at h; subst h; rfl)
  · intro now t
    rcases t with ⟨tid, ti, de, ca, pr, dd, st, ui, ab, co, cr, up⟩
    cases st <;> simp [isOverdueB, specOverdueB]
  · intro now db
    refine List.countP_congr ?_
    intro t _
    rcases t with ⟨tid, ti, de, ca, pr, dd, st, ui, ab, co, cr, up⟩
    cases st <;> simp [specOverdueB]
  · intro now db
    refine List.countP_congr ?_
    intro t _
    rcases t with ⟨tid, ti, de, ca, pr, dd, st, ui, ab, co, ov, cr, up⟩
    cases st <;> simp [specOverdueA]
  · intro now db
    unfold findOverdue
    rw [length_sortByLE, ← List.countP_eq_length_filter]
    refine List.countP_congr ?_
    intro t _
    rcases t with ⟨tid, ti, de, ca, pr, dd, st, ui, ab, co, ov, cr, up⟩
    cases st <;> simp [specOverdueA]

/-- Witness for C4: the virtual is false on a concrete cancelled task
with a past due date. -/
theorem overdue_predicate_consistent_witness :
    isOverdueVirtual 1000
      (TaskA.mk 1 "t" "d" "Personal" "Low" 5 StatusA.cancelled 1 none none false 1 1) = false :=
  overdue_predicate_consistent.2.1 1000
    (TaskA.mk 1 "t" "d" "Personal" "Low" 5 StatusA.cancelled 1 none none false 1 1)
    (Or.inr rfl)

/-- C2 counterexample: the markCompleted instance method of the part_000
schema overwrites the completion timestamp of a task that is already
completed.  The concrete task below is completed with completedAt 100;
calling markCompleted at time 200 rewrites completedAt to 200, so a
transition into completed does not set the timestamp exactly once. -/
theorem markCompleted_overwrites_completedAt :
    (TaskA.mk 1 "t" "d" "Personal" "Low" 500 StatusA.completed 1 none (some 100) false 10 10).status
        = StatusA.completed
    ∧ (TaskA.mk 1 "t" "d" "Personal" "Low" 500 StatusA.completed 1 none (some 100) false 10 10).completedAt
        = some 100
    ∧ (markCompleted 200
        (TaskA.mk 1 "t" "d" "Personal" "Low" 500 StatusA.completed 1 none (some 100) false 10 10)).completedAt
        = some 200
    ∧ (some (200 : Int) ≠ some (100 : Int)) := by
  refine ⟨rfl, rfl, by decide, by decide⟩

/-- C2 amended: after any save through the pre-save hooks and after any
update through the todoController update path, completedAt is non-null
iff the status is completed; those two paths stamp completedAt only on a
transition into completed with no stored timestamp, keep an existing
timestamp when the task is already completed, and clear it on any
transition out of completed.  The markCompleted instance method, however,
always sets completedAt to the current time, even when the task is
already completed. -/
theorem completedAt_invariant :
    (∀ (now : Int) (t : TaskB),
        ((preSaveB now t).status = StatusB.completed ↔ (preSaveB now t).completedAt ≠ none))
    ∧ (∀ (now : Int) (t : TaskA),
        ((preSaveA now t).status = StatusA.completed ↔ (preSaveA now t).completedAt ≠ none))
    ∧ (∀ (now : Int) (t : TaskB) (c : Int),
        t.status = StatusB.completed → t.completedAt = some c →
          (preSaveB now t).completedAt = some c)
    ∧ (∀ (now : Int) (t : TaskB),
        t.status = StatusB.completed → t.completedAt = none →
          (preSaveB now t).completedAt = some now)
    ∧ (∀ (now : Int) (t : TaskB),
        t.status ≠ StatusB.completed → (preSaveB now t).completedAt = none)
    ∧ (∀ (u : Principal) (todoId : Nat) (b : UpdateBody) (users : List Nat) (now : Int)
        (db : List TaskB) (todo r : TaskB),
        findTodoB db todoId = some todo →
        updateTodo u todoId b users now db = Except.ok r →
        (todo.status = StatusB.completed ↔ todo.completedAt ≠ none) →
          ((r.status = StatusB.completed ↔ r.completedAt ≠ none)
            ∧ (∀ c : Int, b.status = some StatusB.completed → todo.completedAt = some c →
                r.completedAt = some c)
            ∧ (∀ s : StatusB, b.status = some s → s ≠ StatusB.completed →
                r.completedAt = none)))
    ∧ (∀ (now : Int) (t : TaskA),
        (markCompleted now t).completedAt = some now
          ∧ (markCompleted now t).status = StatusA.completed) := by
  refine ⟨preSaveB_completedAt_iff, preSaveA_completedAt_iff, preSaveB_keeps_completedAt,
    ?_, ?_, ?_, ?_⟩
  · intro now t hst hco
    rcases t with ⟨tid, ti, de, ca, pr, dd, st, ui, ab, co, cr, up⟩
    simp only at hst hco
    subst hst
    subst hco
    rfl
  · intro now t hst
    rcases t with ⟨tid, ti, de, ca, pr, dd, st, ui, ab, co, cr, up⟩
    simp only at hst
    cases st <;> cases co <;> simp [preSaveB] <;> simp at hst
  · intro u todoId b users now db todo r hfind hok hinv
    have hfields := updateData_fields todo b now
    have hr : r.status = (updateData todo b now).status
        ∧ r.completedAt = (updateData todo b now).completedAt := by
      unfold updateTodo at hok
      rw [hfind] at hok
      dsimp only at hok
      by_cases hauth : todo.userId ≠ u.pid ∧ u.role ≠ Role.admin
      · rw [if_pos hauth] at hok
        exact absurd hok (by simp)
      · rw [if_neg hauth] at hok
        cases hba : b.assignToUserId with
        | none =>
            rw [hba] at hok
            dsimp only at hok
            simp only [Except.ok.injEq] at hok
            subst hok
            exact ⟨rfl, rfl⟩
        | some target =>
            rw [hba] at hok
            dsimp only at hok
            by_cases hadm : u.role = Role.admin
            · rw [if_pos hadm] at hok
              by_cases hex : users.contains target = true
              · rw [if_pos hex] at hok
                simp only [Except.ok.injEq] at hok
                subst hok
                exact ⟨rfl, rfl⟩
              · rw [if_neg hex] at hok
                exact absurd hok (by simp)
            · rw [if_neg hadm] at hok
              simp only [Except.ok.injEq] at hok
              subst hok
              exact ⟨rfl, rfl⟩
    rw [hr.1, hr.2, hfields.2.2.1, hfields.2.2.2]
    cases hbs : b.status with
    | none =>
        dsimp only
        refine ⟨hinv, ?_, ?_⟩
        · intro c hc
          simp at hc
        · intro s hs hne
          simp at hs
    | some s =>
        dsimp only
        refine ⟨?_, ?_, ?_⟩
        · by_cases h1 : s = StatusB.completed ∧ todo.completedAt = none
          · rw [if_pos h1]
            simp [h1.1]
          · rw [if_neg h1]
            by_cases h2 : s ≠ StatusB.completed
            · rw [if_pos h2]
              simp [h2]
            · rw [if_neg h2]
              push_neg at h2
              have hco : todo.completedAt ≠ none := by
                intro hn
                exact h1 ⟨h2, hn⟩
              simp [h2, hco]
        · intro c hc hcoc
          have hsc : s = StatusB.completed := by simpa using hc
          have h1 : ¬(s = StatusB.completed ∧ todo.completedAt = none) := by
            rintro ⟨_, hn⟩
            rw [hcoc] at hn
            cases hn
          rw [if_neg h1, if_neg (by simp [hsc])]
          exact hcoc
        · intro s2 hs2 hne
          have hss : s = s2 := by simpa using hs2
          subst hss
          have h1 : ¬(s = StatusB.completed ∧ todo.completedAt = none) := by
            rintro ⟨h, _⟩
            exact hne h
          rw [if_neg h1, if_pos hne]
  · intro now t
    rcases t with ⟨tid, ti, de, ca, pr, dd, st, ui, ab, co, ov, cr, up⟩
    constructor <;> rfl

/-- Witness for C2 amended: the update path keeps an existing completion
timestamp on a concrete already-completed task. -/
theorem completedAt_invariant_witness :
    (preSaveB 900
        (TaskB.mk 2 "t" "d" "Personal" "Low" 5 StatusB.completed 1 none (some 50) 1 1)).completedAt
      = some 50 :=
  completedAt_invariant.2.2.1 900
    (TaskB.mk 2 "t" "d" "Personal" "Low" 5 StatusB.completed 1 none (some 50) 1 1) 50 rfl rfl

/-- C3 counterexample: a create request by a non-admin principal naming
another owner is not rejected by todoController's createTodo: the
assignToUserId is silently ignored and a task is created, owned by the
requester with assignedBy null, rather than the request failing
Forbidden with no task created. -/
theorem createTodo_nonadmin_assign_not_forbidden :
    (createTodo (Principal.mk 1 Role.user)
        (CreateBody.mk "t" "d" 500 "Personal" none (some 2)) [1, 2] 10 50).toOption.map
      (fun t => (t.userId, t.assignedBy)) = some (1, none) := by decide

/-- C3 amended: in the part_005 controller a non-admin create naming a
target owner fails Forbidden with no task created; in todoController the
same request does not fail: the target is ignored and the task is
created owned by the requester with assignedBy null.  An admin create
naming an existing target succeeds in both controllers, producing a task
whose owner is the target and whose assignedBy is the admin's id. -/
theorem create_assignment_policy :
    (∀ (u : Principal) (b : CreateBodyP5) (users : List Nat) (tid : Nat) (now : Int)
        (target : Nat),
        u.role ≠ Role.admin → b.targetUserId = some target →
          createTodoP5 u b users tid now = Except.error ApiError.forbidden)
    ∧ (∀ (u : Principal) (b : CreateBody) (users : List Nat) (tid : Nat) (now : Int)
        (target : Nat),
        u.role ≠ Role.admin → b.assignToUserId = some target →
          ∃ t, createTodo u b users tid now = Except.ok t
            ∧ t.userId = u.pid ∧ t.assignedBy = none)
    ∧ (∀ (u : Principal) (b : CreateBody) (users : List Nat) (tid : Nat) (now : Int)
        (target : Nat),
        u.role = Role.admin → b.assignToUserId = some target → users.contains target = true →
          ∃ t, createTodo u b users tid now = Except.ok t
            ∧ t.userId = target ∧ t.assignedBy = some u.pid)
    ∧ (∀ (u : Principal) (b : CreateBodyP5) (users : List Nat) (tid : Nat) (now : Int)
        (target : Nat),
        u.role = Role.admin → b.targetUserId = some target → users.contains target = true →
          ∃ t, createTodoP5 u b users tid now = Except.ok t
            ∧ t.userId = target ∧ t.assignedBy = some u.pid) := by
  refine ⟨?_, ?_, ?_, ?_⟩
  · intro u b users tid now target hrole hb
    unfold createTodoP5
    rw [hb]
    dsimp only
    rw [if_neg hrole]
  · intro u b users tid now target hrole hb
    refine ⟨preSaveB now (newTaskB tid b u.pid none now), ?_, ?_, ?_⟩
    · unfold createTodo
      rw [hb]
      dsimp only
      rw [if_neg hrole]
    · rw [preSaveB_userId, newTaskB]
    · rw [preSaveB_assignedBy, newTaskB]
  · intro u b users tid now target hrole hb hex
    refine ⟨preSaveB now (newTaskB tid b target (some u.pid) now), ?_, ?_, ?_⟩
    · unfold createTodo
      rw [hb]
      dsimp only
      rw [if_pos hrole, if_pos hex]
    · rw [preSaveB_userId, newTaskB]
    · rw [preSaveB_assignedBy, newTaskB]
  · intro u b users tid now target hrole hb hex
    refine ⟨preSaveA now (newTaskA tid b target (some u.pid) now), ?_, ?_, ?_⟩
    · unfold createTodoP5
      rw [hb]
      dsimp only
      rw [if_pos hrole, if_pos hex]
    · rw [preSaveA_userId, newTaskA]
    · rw [preSaveA_assignedBy, newTaskA]

/-- Witness for C3 amended: the part_005 variant rejects a concrete
non-admin create naming another owner with Forbidden. -/
theorem create_assignment_policy_witness :
    createTodoP5 (Principal.mk 1 Role.user)
        (CreateBodyP5.mk "t" "d" 500 "Personal" none (some 2)) [1, 2] 11 50
      = Except.error ApiError.forbidden :=
  create_assignment_policy.1 (Principal.mk 1 Role.user)
    (CreateBodyP5.mk "t" "d" 500 "Personal" none (some 2)) [1, 2] 11 50 2
    (by decide) rfl

/-- C10: an update of an existing task by a non-admin principal leaves
the stored owner reference and assignedBy unchanged, even when the
request supplies an assignToUserId; an update with no assignToUserId
leaves them unchanged for every principal; an admin update that supplies
an existing assignToUserId sets the owner to the target and assignedBy
to the admin's id; and the part_005 update path, which reads no owner
field at all, always preserves both. -/
theorem update_owner_frame :
    (∀ (u : Principal) (todoId : Nat) (b : UpdateBody) (users : List Nat) (now : Int)
        (db : List TaskB) (todo r : TaskB),
        findTodoB db todoId = some todo →
        updateTodo u todoId b users now db = Except.ok r →
        u.role ≠ Role.admin →
          r.userId = todo.userId ∧ r.assignedBy = todo.assignedBy)
    ∧ (∀ (u : Principal) (todoId : Nat) (b : UpdateBody) (users : List Nat) (now : Int)
        (db : List TaskB) (todo r : TaskB),
        findTodoB db todoId = some todo →
        updateTodo u todoId b users now db = Except.ok r →
        b.assignToUserId = none →
          r.userId = todo.userId ∧ r.assignedBy = todo.assignedBy)
    ∧ (∀ (u : Principal) (todoId : Nat) (b : UpdateBody) (users : List Nat) (now : Int)
        (db : List TaskB) (r : TaskB) (target : Nat),
        updateTodo u todoId b users now db = Except.ok r →
        u.role = Role.admin → b.assignToUserId = some target →
          r.userId = target ∧ r.assignedBy = some u.pid)
    ∧ (∀ (u : Principal) (todoId : Nat) (b : UpdateBodyP5) (now : Int)
        (db : List TaskA) (todo r : TaskA),
        findTodoA db todoId = some todo →
        updateTodoP5 u todoId b now db = Except.ok r →
          r.userId = todo.userId ∧ r.assignedBy = todo.assignedBy) := by
  have hfields := fun todo b now => updateData_fields todo b now
  refine ⟨?_, ?_, ?_, ?_⟩
  · intro u todoId b users now db todo r hfind hok hrole
    unfold updateTodo at hok
    rw [hfind] at hok
    dsimp only at hok
    by_cases hauth : todo.userId ≠ u.pid ∧ u.role ≠ Role.admin
    · rw [if_pos hauth] at hok
      exact absurd hok (by simp)
    · rw [if_neg hauth] at hok
      cases hba : b.assignToUserId with
      | none =>
          rw [hba] at hok
          dsimp only at hok
          simp only [Except.ok.injEq] at hok
          subst hok
          exact ⟨(hfields todo b now).1, (hfields todo b now).2.1⟩
      | some target =>
          rw [hba] at hok
          dsimp only at hok
          rw [if_neg hrole] at hok
          simp only [Except.ok.injEq] at hok
          subst hok
          exact ⟨(hfields todo b now).1, (hfields todo b now).2.1⟩
  · intro u todoId b users now db todo r hfind hok hba
    unfold updateTodo at hok
    rw [hfind] at hok
    dsimp only at hok
    by_cases hauth : todo.userId ≠ u.pid ∧ u.role ≠ Role.admin
    · rw [if_pos hauth] at hok
      exact absurd hok (by simp)
    · rw [if_neg hauth] at hok
      rw [hba] at hok
      dsimp only at hok
      simp only [Except.ok.injEq] at hok
      subst hok
      exact ⟨(hfields todo b now).1, (hfields todo b now).2.1⟩
  · intro u todoId b users now db r target hok hrole hba
    unfold updateTodo at hok
    cases hfind : findTodoB db todoId with
    | none =>
        rw [hfind] at hok
        exact absurd hok (by simp)
    | some todo =>
        rw [hfind] at hok
        dsimp only at hok
        by_cases hauth : todo.userId ≠ u.pid ∧ u.role ≠ Role.admin
        · rw [if_pos hauth] at hok
          exact absurd hok (by simp)
        · rw [if_neg hauth] at hok
          rw [hba] at hok
          dsimp only at hok
          rw [if_pos hrole] at hok
          by_cases hex : users.contains target = true
          · rw [if_pos hex] at hok
            simp only [Except.ok.injEq] at hok
            subst hok
            exact ⟨rfl, rfl⟩
          · rw [if_neg hex] at hok
            exact absurd hok (by simp)
  · intro u todoId b now db todo r hfind hok
    unfold updateTodoP5 at hok
    rw [hfind] at hok
    dsimp only at hok
    by_cases hauth : todo.userId ≠ u.pid ∧ u.role ≠ Role.admin
    · rw [if_pos hauth] at hok
      exact absurd hok (by simp)
    · rw [if_neg hauth] at hok
      simp only [Except.ok.injEq] at hok
      subst hok
      constructor
      · rw [preSaveA_userId, applyUpdateP5_userId]
      · rw [preSaveA_assignedBy, applyUpdateP5_assignedBy]

/-- Witness for C10 at a concrete non-admin update that supplies an
assignToUserId naming another user: the hypotheses of the frame theorem
are discharged on a concrete store and the preserved fields coincide. -/
theorem update_owner_frame_witness :
    (Principal.mk 1 Role.user).role ≠ Role.admin
    ∧ ((TaskB.mk 5 "t" "d" "Personal" "Low" 9 StatusB.pending 1 none none 1 1).userId
          = (TaskB.mk 5 "t" "d" "Personal" "Low" 9 StatusB.pending 1 none none 1 1).userId
        ∧ (TaskB.mk 5 "t" "d" "Personal" "Low" 9 StatusB.pending 1 none none 1 1).assignedBy
          = (TaskB.mk 5 "t" "d" "Personal" "Low" 9 StatusB.pending 1 none none 1 1).assignedBy) := by
  refine ⟨by decide, ?_⟩
  exact update_owner_frame.1 (Principal.mk 1 Role.user) 5
    (UpdateBody.mk none none none none none none (some 2)) [1, 2] 77
    [TaskB.mk 5 "t" "d" "Personal" "Low" 9 StatusB.pending 1 none none 1 1]
    (TaskB.mk 5 "t" "d" "Personal" "Low" 9 StatusB.pending 1 none none 1 1)
    (TaskB.mk 5 "t" "d" "Personal" "Low" 9 StatusB.pending 1 none none 1 1)
    rfl rfl (by decide)

/-- C5 counterexample: the adminRoutes user-update entry point applies a
role change with no last-admin check, so the sole active admin can
demote themselves and the operation succeeds leaving zero active
admin accounts, where the claim requires it to fail. -/
theorem sole_admin_demotion_succeeds :
    (adminRoutesUpdateUser (UserRec.mk 1 "root" Role.admin true) 1
        (UserUpdateBody.mk (some Role.user) none)
        [UserRec.mk 1 "root" Role.admin true]).toOption.map countActiveAdmins
      = some 0 := by decide

/-- C5 amended: the invariant is enforced by the deleteAccount entry
point (an admin cannot deactivate their account when at most one active
admin exists, and can when two or more exist) and by the routes/admin.js
user-update entry point (demoting an admin with no other active admin is
rejected, while deactivating a different user always proceeds once the
target is found); but the adminRoutes user-update entry point applies
any role change or deactivation of another user unconditionally after
its self-deactivation guard, with no last-admin check, so the invariant
is not enforced on every role-change entry point. -/
theorem last_admin_guard :
    (∀ (requester : UserRec) (users : List UserRec),
        requester.role = Role.admin → countActiveAdmins users ≤ 1 →
          deleteAccount requester users = Except.error ApiError.conflict)
    ∧ (∀ (requester : UserRec) (users : List UserRec),
        requester.role = Role.admin → 2 ≤ countActiveAdmins users →
          (deleteAccount requester users).isOk = true)
    ∧ (∀ (requester target : UserRec) (b : UserUpdateBody) (users : List UserRec),
        ¬(target.uid = requester.uid ∧ b.isActive = some false) →
        users.find? (fun u => u.uid == target.uid) = some target →
        b.role = some Role.user → target.role = Role.admin →
        otherActiveAdmins target.uid users = 0 →
          adminJsUpdateUser requester target.uid b users = Except.error ApiError.conflict)
    ∧ (∀ (requester target : UserRec) (users : List UserRec),
        target.uid ≠ requester.uid →
        users.find? (fun u => u.uid == target.uid) = some target →
          (adminJsUpdateUser requester target.uid (UserUpdateBody.mk none (some false))
              users).isOk = true)
    ∧ (∀ (requester : UserRec) (targetId : Nat) (b : UserUpdateBody)
        (users : List UserRec) (target : UserRec),
        ¬(targetId = requester.uid ∧ b.isActive = some false) →
        users.find? (fun u => u.uid == targetId) = some target →
          adminRoutesUpdateUser requester targetId b users
            = Except.ok (users.map (fun u =>
                if u.uid = targetId then applyUserUpdate b u else u))) := by
  refine ⟨?_, ?_, ?_, ?_, ?_⟩
  · intro requester users hrole hcount
    unfold deleteAccount
    rw [if_pos ⟨hrole, hcount⟩]
  · intro requester users hrole hcount
    unfold deleteAccount
    rw [if_neg ?_]
    · rfl
    · rintro ⟨_, hle⟩
      omega
  · intro requester target b users hself hfind hrole htadmin hother
    unfold adminJsUpdateUser
    rw [if_neg hself, hfind]
    dsimp only
    rw [if_pos ⟨hrole, htadmin, by omega⟩]
  · intro requester target users hne hfind
    unfold adminJsUpdateUser
    rw [if_neg ?_, hfind]
    · dsimp only
      rw [if_neg ?_]
      · rfl
      · rintro ⟨hr, _, _⟩
        cases hr
    · rintro ⟨h, _⟩
      exact hne h
  · intro requester targetId b users target hself hfind
    unfold adminRoutesUpdateUser
    rw [if_neg hself, hfind]

/-- Witness for C5 amended: with a single active admin in the store,
their own deleteAccount request fails with the conflict error. -/
theorem last_admin_guard_witness :
    deleteAccount (UserRec.mk 1 "root" Role.admin true) [UserRec.mk 1 "root" Role.admin true]
      = Except.error ApiError.conflict :=
  last_admin_guard.1 (UserRec.mk 1 "root" Role.admin true)
    [UserRec.mk 1 "root" Role.admin true] rfl (by decide)

/-- C7 counterexample: the getTodos entry point also accepts a group
parameter, but an unknown group value is not rejected with an
invalid-parameter failure: the request succeeds and returns items.  In
the concrete instance below the unknown group even suppresses the raw
status filter, so a completed task is returned against a pending status
filter. -/
theorem unknown_group_returns_results :
    (getTodos 1
        (TodoQuery.mk 1 20 (some StatusB.pending) none none none "createdAt" "desc"
          (some "bogus")) 1000 0
        [TaskB.mk 7 "a" "b" "Personal" "Low" 500 StatusB.completed 1 none (some 3) 10 10]).todos
      = [TaskB.mk 7 "a" "b" "Personal" "Low" 500 StatusB.completed 1 none (some 3) 10 10] := by
  decide

/-- C7 amended: only the group-path entry point getTodosByGroup rejects
a group value outside the four recognized ones with an
invalid-parameter failure; the getTodos list entry point accepts a group
parameter but silently ignores an unknown non-empty group value,
returning the same response as a request with no group and no status
filter at all. -/
theorem group_validation :
    (∀ (uid : Nat) (g : String) (now startOfToday : Int) (db : List TaskB),
        g ≠ "today" → g ≠ "all" → g ≠ "completed" → g ≠ "overdue" →
          getTodosByGroup uid g now startOfToday db = Except.error ApiError.invalidParameter)
    ∧ (∀ (uid : Nat) (q : TodoQuery) (g : String) (now startOfToday : Int) (db : List TaskB),
        q.group = some g → g ≠ "" →
        g ≠ "today" → g ≠ "all" → g ≠ "completed" → g ≠ "overdue" →
          getTodos uid q now startOfToday db
            = getTodos uid { q with group := none, status := none } now startOfToday db) := by
  constructor
  · intro uid g now startOfToday db h1 h2 h3 h4
    unfold getTodosByGroup
    rw [if_neg h1, if_neg h2, if_neg h3, if_neg h4]
  · intro uid q g now startOfToday db hg hge h1 h2 h3 h4
    have hpred : matchesQuery uid q now startOfToday
        = matchesQuery uid { q with group := none, status := none } now startOfToday := by
      funext t
      unfold matchesQuery groupMatch
      rw [hg]
      dsimp only
      rw [if_neg h1, if_neg h3, if_neg h4, if_neg h2]
      have htr : optTruthy (some g) = true := by
        simp [optTruthy, hge]
      rw [htr]
      cases q.status <;> simp
    unfold getTodos
    rw [hpred]

/-- Witness for C7 amended: a concrete unknown group is rejected by the
group-path entry point. -/
theorem group_validation_witness :
    getTodosByGroup 1 "bogus" 1000 0 [] = Except.error ApiError.invalidParameter :=
  group_validation.1 1 "bogus" 1000 0 [] (by decide) (by decide) (by decide) (by decide)

/-- C8 counterexample: a task whose category contains the search term
but whose title and description do not is required by the claim to be
returned, yet the search endpoint of todoController.js matches only
title and description and returns nothing for it. -/
theorem search_misses_category_match :
    searchTodos 1 "Home" 1 20
        [TaskB.mk 3 "alpha" "beta" "Home" "Medium" 5 StatusB.pending 1 none none 1 1]
      = Except.ok (SearchResult.mk [] 0)
    ∧ specSearchMatch3B "Home"
        (TaskB.mk 3 "alpha" "beta" "Home" "Medium" 5 StatusB.pending 1 none none 1 1)
      = true := by
  constructor
  · rfl
  · decide

/-- C8 amended: the search endpoint of todoController.js returns, within
the requester's scope, exactly the tasks whose title or description
contains the term case-insensitively (category is not searched); the
three-field disjunction of the claim is implemented only by the
searchTodos static of the part_000 schema.  A blank term is rejected
with an invalid-parameter failure. -/
theorem search_predicate :
    (∀ (uid : Nat) (q : String) (page limit : Nat) (db : List TaskB) (r : SearchResult),
        searchTodos uid q page limit db = Except.ok r →
          (r.total = db.countP (fun t => t.userId == uid && searchMatch2 q t)
            ∧ (page = 1 → db.length ≤ limit →
                ∀ t : TaskB, t ∈ r.todos ↔ t ∈ db ∧ t.userId = uid ∧ searchMatch2 q t = true)))
    ∧ (∀ (q : String) (uid0 : Nat) (db : List TaskA) (t : TaskA),
        t ∈ searchTodosStatic q (some uid0) db
          ↔ t ∈ db ∧ t.userId = uid0 ∧ searchMatch3 q t = true)
    ∧ (∀ (uid : Nat) (q : String) (page limit : Nat) (db : List TaskB),
        isBlank q = true →
          searchTodos uid q page limit db = Except.error ApiError.invalidParameter) := by
  refine ⟨?_, ?_, ?_⟩
  · intro uid q page limit db r hok
    unfold searchTodos at hok
    by_cases hq : isBlank q = true
    · rw [if_pos hq] at hok
      exact absurd hok (by simp)
    · rw [if_neg hq] at hok
      dsimp only at hok
      simp only [Except.ok.injEq] at hok
      subst hok
      constructor
      · show (searchCtrlFilter uid q db).length = _
        unfold searchCtrlFilter
        rw [List.countP_eq_length_filter]
      · intro hp hlim t
        subst hp
        have h0 : (1 - 1) * limit = 0 := by simp
        rw [h0, List.drop_zero]
        have hlen : (sortByLE (fun a b => decide (b.createdAt ≤ a.createdAt))
            (searchCtrlFilter uid q db)).length ≤ limit := by
          rw [length_sortByLE]
          unfold searchCtrlFilter
          exact le_trans (List.length_filter_le _ _) hlim
        rw [List.take_of_length_le hlen, mem_sortByLE]
        unfold searchCtrlFilter
        rw [List.mem_filter]
        simp only [Bool.and_eq_true, beq_iff_eq]
  · intro q uid0 db t
    unfold searchTodosStatic
    rw [mem_sortByLE, List.mem_filter]
    simp only [Bool.and_eq_true, beq_iff_eq]
    tauto
  · intro uid q page limit db hq
    unfold searchTodos
    rw [if_pos hq]

/-- Witness for C8 amended: the characterization instantiated on a
concrete store where the search succeeds on a title match. -/
theorem search_predicate_witness :
    (SearchResult.mk [TaskB.mk 3 "Alpha" "beta" "Home" "Medium" 5 StatusB.pending 1 none none 1 1] 1).total
        = [TaskB.mk 3 "Alpha" "beta" "Home" "Medium" 5 StatusB.pending 1 none none 1 1].countP
            (fun t => t.userId == 1 && searchMatch2 "alp" t)
    ∧ (1 = 1 →
        [TaskB.mk 3 "Alpha" "beta" "Home" "Medium" 5 StatusB.pending 1 none none 1 1].length ≤ 20 →
        ∀ t : TaskB,
          t ∈ (SearchResult.mk
              [TaskB.mk 3 "Alpha" "beta" "Home" "Medium" 5 StatusB.pending 1 none none 1 1] 1).todos
            ↔ t ∈ [TaskB.mk 3 "Alpha" "beta" "Home" "Medium" 5 StatusB.pending 1 none none 1 1]
                ∧ t.userId = 1 ∧ searchMatch2 "alp" t = true) :=
  search_predicate.1 1 "alp" 1 20
    [TaskB.mk 3 "Alpha" "beta" "Home" "Medium" 5 StatusB.pending 1 none none 1 1]
    (SearchResult.mk [TaskB.mk 3 "Alpha" "beta" "Home" "Medium" 5 StatusB.pending 1 none none 1 1] 1)
    rfl

/-- C9: the weekly comparison of the dashboard reports the creation
count over the trailing seven days as the current week and the count
over the seven days before those as the previous week, with the growth
value given exactly by the rounded percentage formula of the claim.
Provided every stored task was created before the dashboard's single
logical now, the code's lower-bounded current-week count coincides with
the half-open window of the claim. -/
theorem weeklyComparison_windows (now : Int) (db : List TaskB)
    (h : ∀ t ∈ db, t.createdAt < now) :
    (weeklyComparison now db).currentWeek
        = db.countP (fun t => decide (now - 7 * msPerDay ≤ t.createdAt)
            && decide (t.createdAt < now))
    ∧ (weeklyComparison now db).previousWeek
        = db.countP (fun t => decide (now - 14 * msPerDay ≤ t.createdAt)
            && decide (t.createdAt < now - 7 * msPerDay))
    ∧ (weeklyComparison now db).growth
        = (if 0 < (weeklyComparison now db).previousWeek then
             jsRound (((((weeklyComparison now db).currentWeek : Int)
                 - ((weeklyComparison now db).previousWeek : Int) : Int) : ℚ)
               / (((weeklyComparison now db).previousWeek : Int) : ℚ) * 100)
           else if 0 < (weeklyComparison now db).currentWeek then 100 else 0) := by
  refine ⟨?_, rfl, rfl⟩
  show db.countP (fun t => decide (now - 7 * msPerDay ≤ t.createdAt)) = _
  refine List.countP_congr ?_
  intro t ht
  have hc := h t ht
  simp [hc]

/-! Arithmetic of the pagination window. -/

theorem ceilDiv_eq_zero_iff (a b : Nat) (hb : 0 < b) : ceilDiv a b = 0 ↔ a = 0 := by
  unfold ceilDiv
  rw [Nat.div_eq_zero_iff hb]
  omega

theorem ceilDiv_succ_of_pos (a b : Nat) (hb : 0 < b) (ha : 0 < a) :
    ceilDiv a b = ceilDiv (a - b) b + 1 := by
  unfold ceilDiv
  rcases le_or_lt a b with hab | hab
  · have h0 : a - b = 0 := by omega
    rw [h0]
    have e1 : a + b - 1 = (a - 1) + b := by omega
    rw [e1, Nat.add_div_right _ hb, Nat.div_eq_of_lt (by omega), Nat.div_eq_of_lt (by omega)]
  · have e1 : a + b - 1 = (a - 1) + b := by omega
    have e2 : a - b + b - 1 = a - 1 := by omega
    rw [e1, e2, Nat.add_div_right _ hb]

/-- Concatenating the pages of size s, one page per index below the
ceiling of length over s, reproduces the underlying list exactly. -/
theorem flatten_pages {α : Type} (s : Nat) (hs : 0 < s) :
    ∀ (n : Nat) (l : List α), ceilDiv l.length s = n →
      ((List.range n).map (fun i => (l.drop (i * s)).take s)).flatten = l := by
  intro n
  induction n with
  | zero =>
      intro l hl
      have h0 : l.length = 0 := (ceilDiv_eq_zero_iff l.length s hs).mp hl
      have he : l = [] := List.eq_nil_of_length_eq_zero h0
      subst he
      simp
  | succ n ih =>
      intro l hl
      have hpos : 0 < l.length := by
        rcases Nat.eq_zero_or_pos l.length with h0 | h0
        · exfalso
          have := (ceilDiv_eq_zero_iff l.length s hs).mpr h0
          omega
        · exact h0
      have hrec : ceilDiv (l.drop s).length s = n := by
        rw [List.length_drop]
        have := ceilDiv_succ_of_pos l.length s hs hpos
        omega
      have hjoin := ih (l.drop s) hrec
      rw [List.range_succ_eq_map, List.map_cons, List.map_map, List.flatten_cons]
      have hfun : ((fun i => (l.drop (i * s)).take s) ∘ Nat.succ)
          = fun i => ((l.drop s).drop (i * s)).take s := by
        funext i
        simp only [Function.comp_apply]
        rw [List.drop_drop]
        have : Nat.succ i * s = s + i * s := by
          rw [Nat.succ_mul, Nat.add_comm]
        rw [this]
      simp only [Nat.zero_mul, List.drop_zero]
      rw [hfun, hjoin]
      exact List.take_append_drop s l

/-- C6: for a fixed filter set, sort and page size of at least one, the
returned total counts the matching tasks before pagination, totalPages
is the ceiling of total over the page size, concatenating the pages one
through totalPages reproduces the whole sorted filtered list — exactly
total items, with no duplicates when the store has none and no gaps —
and the hasNextPage and hasPrevPage flags equal the derived
comparisons of the claim. -/
theorem getTodos_pagination (uid : Nat) (q : TodoQuery) (now startOfToday : Int)
    (db : List TaskB) (hs : 1 ≤ q.limit) :
    (getTodos uid q now startOfToday db).total
        = (db.filter (matchesQuery uid q now startOfToday)).length
    ∧ (getTodos uid q now startOfToday db).totalPages
        = ceilDiv (getTodos uid q now startOfToday db).total q.limit
    ∧ ((List.range (getTodos uid q now startOfToday db).totalPages).map
          (fun i => (getTodos uid (pageQ q (i + 1)) now startOfToday db).todos)).flatten
        = sortTodos q.sortBy q.sortOrder (db.filter (matchesQuery uid q now startOfToday))
    ∧ ((List.range (getTodos uid q now startOfToday db).totalPages).map
          (fun i => (getTodos uid (pageQ q (i + 1)) now startOfToday db).todos)).flatten.length
        = (getTodos uid q now startOfToday db).total
    ∧ (db.Nodup →
        ((List.range (getTodos uid q now startOfToday db).totalPages).map
          (fun i => (getTodos uid (pageQ q (i + 1)) now startOfToday db).todos)).flatten.Nodup)
    ∧ (getTodos uid q now startOfToday db).hasNextPage
        = decide (q.page < ceilDiv (getTodos uid q now startOfToday db).total q.limit)
    ∧ (getTodos uid q now startOfToday db).hasPrevPage = decide (1 < q.page) := by
  have hflat : ((List.range (getTodos uid q now startOfToday db).totalPages).map
        (fun i => (getTodos uid (pageQ q (i + 1)) now startOfToday db).todos)).flatten
      = sortTodos q.sortBy q.sortOrder (db.filter (matchesQuery uid q now startOfToday)) := by
    have hfun : (fun i => (getTodos uid (pageQ q (i + 1)) now startOfToday db).todos)
        = fun i => ((sortTodos q.sortBy q.sortOrder
            (db.filter (matchesQuery uid q now startOfToday))).drop (i * q.limit)).take
            q.limit := rfl
    rw [hfun]
    refine flatten_pages q.limit hs _ _ ?_
    unfold sortTodos
    rw [length_sortByLE]
    rfl
  refine ⟨rfl, rfl, hflat, ?_, ?_, rfl, rfl⟩
  · rw [hflat]
    unfold sortTodos
    rw [length_sortByLE]
    rfl
  · intro hnd
    rw [hflat]
    exact ((sortByLE_perm _ _).nodup_iff).mpr (hnd.filter _)

/-- Witness for C6 at a concrete page-size-two query over a store of
three matching tasks. -/
theorem getTodos_pagination_witness :
    (getTodos 1 (TodoQuery.mk 1 2 none none none none "createdAt" "desc" none) 0 0
        [TaskB.mk 1 "a" "" "Personal" "Low" 1 StatusB.pending 1 none none 1 1,
         TaskB.mk 2 "b" "" "Personal" "Low" 2 StatusB.pending 1 none none 2 2,
         TaskB.mk 3 "c" "" "Personal" "Low" 3 StatusB.pending 1 none none 3 3]).total
        = ([TaskB.mk 1 "a" "" "Personal" "Low" 1 StatusB.pending 1 none none 1 1,
            TaskB.mk 2 "b" "" "Personal" "Low" 2 StatusB.pending 1 none none 2 2,
            TaskB.mk 3 "c" "" "Personal" "Low" 3 StatusB.pending 1 none none 3 3].filter
            (matchesQuery 1 (TodoQuery.mk 1 2 none none none none "createdAt" "desc" none) 0 0)).length
    ∧ (getTodos 1 (TodoQuery.mk 1 2 none none none none "createdAt" "desc" none) 0 0
        [TaskB.mk 1 "a" "" "Personal" "Low" 1 StatusB.pending 1 none none 1 1,
         TaskB.mk 2 "b" "" "Personal" "Low" 2 StatusB.pending 1 none none 2 2,
         TaskB.mk 3 "c" "" "Personal" "Low" 3 StatusB.pending 1 none none 3 3]).totalPages
        = ceilDiv (getTodos 1 (TodoQuery.mk 1 2 none none none none "createdAt" "desc" none) 0 0
            [TaskB.mk 1 "a" "" "Personal" "Low" 1 StatusB.pending 1 none none 1 1,
             TaskB.mk 2 "b" "" "Personal" "Low" 2 StatusB.pending 1 none none 2 2,
             TaskB.mk 3 "c" "" "Personal" "Low" 3 StatusB.pending 1 none none 3 3]).total 2 :=
  let q0 := TodoQuery.mk 1 2 none none none none "createdAt" "desc" none
  let db0 := [TaskB.mk 1 "a" "" "Personal" "Low" 1 StatusB.pending 1 none none 1 1,
              TaskB.mk 2 "b" "" "Personal" "Low" 2 StatusB.pending 1 none none 2 2,
              TaskB.mk 3 "c" "" "Personal" "Low" 3 StatusB.pending 1 none none 3 3]
  ⟨(getTodos_pagination 1 q0 0 0 db0 (by decide)).1,
   (getTodos_pagination 1 q0 0 0 db0 (by decide)).2.1⟩

/-- Witness for C9 on a concrete store whose tasks precede now. -/
theorem weeklyComparison_windows_witness :
    (weeklyComparison 1728000000 [TaskB.mk 1 "t" "d" "Personal" "Low" 5 StatusB.pending 1 none none 1209600001 0]).currentWeek
      = [TaskB.mk 1 "t" "d" "Personal" "Low" 5 StatusB.pending 1 none none 1209600001 0].countP
          (fun t => decide (1728000000 - 7 * msPerDay ≤ t.createdAt)
            && decide (t.createdAt < 1728000000)) :=
  (weeklyComparison_windows 1728000000
    [TaskB.mk 1 "t" "d" "Personal" "Low" 5 StatusB.pending 1 none none 1209600001 0]
    (by intro t ht; simp at ht; subst ht; decide)).1

end MSTB
